/-
Verification of the image-to-text extractor application.

Shallow embedding of the repository's own logic:
  * `app.py`: API-key validation (`configure_gemini_api`), the remote
    (Gemini) extraction backend (`extract_text_from_image`) with its
    resize step and error classification, the statistics display and the
    clear action of the main page.
  * `utils/easyocr_utils.py`: the local (EasyOCR) backend
    (`EasyOCRProcessor`), the language selector, the statistics display
    and the clear action of the local page.

External library calls (the Gemini model call, the EasyOCR engine) are
modelled by their outcome: a sum type enumerating the ways the call can
return or raise, exactly the cases the surrounding Python code
distinguishes.  Python exceptions that escape a function are modelled by
`Except.error`; every `return` is `Except.ok`.
-/
import Mathlib

set_option autoImplicit false
set_option maxRecDepth 8192

/-! ### Python string primitives

`pyIn needle hay` is Python's `needle in hay` substring test;
`py_startswith s pre` is `s.startswith(pre)`.  Both are written as
structural recursions over the character list so that they evaluate by
`decide` / `rfl`. -/

/-- Prefix test on character lists (Python `str.startswith` on code points). -/
def isPrefixList : List Char → List Char → Bool
  | [], _ => true
  | _ :: _, [] => false
  | a :: as, b :: bs => a = b && isPrefixList as bs

/-- Substring (infix) test on character lists (Python `in` on strings). -/
def isInfixList (n : List Char) : List Char → Bool
  | [] => isPrefixList n []
  | c :: rest => isPrefixList n (c :: rest) || isInfixList n rest

/-- Python `needle in hay` for strings. -/
def pyIn (needle hay : String) : Bool := isInfixList needle.data hay.data

/-- Python `s.startswith(pre)`. -/
def py_startswith (s pre : String) : Bool := isPrefixList pre.data s.data

/-! ### Configuration validation (`app.py`, `configure_gemini_api`, lines 56-67)

After the key has been normalized (whitespace/quote/BOM stripping, lines
44-53), the code performs two ordered checks: `api_key.startswith('AIza')`
and `len(api_key) < 30`; each failing check shows an error and halts via
`st.stop()`; otherwise control proceeds to `genai.configure`. -/

/-- Outcome of the validation step of `configure_gemini_api`. -/
inductive ConfigCheck where
  | formatError
  | lengthError
  | proceed
deriving DecidableEq, Repr

/-- Lines 56-67 of `app.py`: the two ordered checks on the normalized key. -/
def validate_api_key (key : String) : ConfigCheck :=
  if !(py_startswith key "AIza") then ConfigCheck.formatError
  else if key.length < 30 then ConfigCheck.lengthError
  else ConfigCheck.proceed

/-! ### Remote backend: `extract_text_from_image` (`app.py`, lines 89-156) -/

/-- Lines 104-110 of `app.py`: `max_size = 4096`; when the larger dimension
exceeds it, each dimension is scaled by `max_size / max(image.size)` and
truncated with `int`.  Dimensions are exact naturals, so `int(dim * ratio)`
is `dim * 4096 / m` in floor division. -/
def resize_for_gemini (w h : Nat) : Nat × Nat :=
  if Nat.max w h > 4096 then
    (w * 4096 / Nat.max w h, h * 4096 / Nat.max w h)
  else (w, h)

/-- Outcome of the `model.generate_content` call as the code inspects it:
a response carrying `prompt_feedback.block_reason` (truthy reason modelled
by `some`) and `response.text` (falsy modelled by `""`), or a raised
exception with its `str(e)` message. -/
inductive GeminiCallResult where
  | response (blockReason : Option String) (text : String)
  | raised (msg : String)

/-- The multi-line literal returned for messages containing `"400"`
(`app.py` lines 139-150). -/
def error_400_message : String :=
  "❌ Error 400: Bad Request\n            \n                    Possible causes:\n                    1. Invalid API key - Please check your GEMINI_API_KEY in .env file\n                    2. Image format issue - Try a different image\n                    3. API quota exceeded - Check your Gemini API usage\n\n                    Please verify:\n                    - API key starts with \x27AIza\x27 and is about 39 characters\n                    - Image is a valid PNG, JPG, or WEBP file\n                    - You have API quota remaining at https://makersuite.google.com/\n                    "

/-- Literal returned for messages containing `"403"` (line 152). -/
def error_403_message : String :=
  "❌ Error 403: API key is invalid or doesn\x27t have permission"

/-- Literal returned for messages containing `"429"` (line 154). -/
def error_429_message : String :=
  "❌ Error 429: Rate limit exceeded. Please wait a moment and try again"

/-- The `except` clause of `extract_text_from_image` (lines 134-156):
ordered substring matches on `str(e)`, generic fallback. -/
def classify_gemini_error (msg : String) : String :=
  if pyIn "400" msg then error_400_message
  else if pyIn "403" msg then error_403_message
  else if pyIn "429" msg then error_429_message
  else "❌ Error extracting text: " ++ msg

/-- The `try` block of `extract_text_from_image` (lines 99-132): blocked
responses and empty text are ordinary returns, a raised exception escapes
the block. -/
def gemini_try_body (r : GeminiCallResult) : Except String String :=
  match r with
  | GeminiCallResult.raised msg => Except.error msg
  | GeminiCallResult.response (some reason) _ =>
      Except.ok ("Content was blocked: " ++ reason)
  | GeminiCallResult.response none text =>
      if text = "" then Except.ok "No text could be extracted from the image."
      else Except.ok text

/-- `extract_text_from_image` (lines 89-156): the `try` body with its
catch-all `except` clause, which returns the classified message. -/
def extract_text_from_image (r : GeminiCallResult) : Except String String :=
  match gemini_try_body r with
  | Except.ok s => Except.ok s
  | Except.error e => Except.ok (classify_gemini_error e)

/-! ### Local backend: `EasyOCRProcessor` (`easyocr_utils.py`, lines 13-103) -/

/-- Minimal model of an initialized `easyocr.Reader`. -/
structure Reader where
  langs : List String
deriving DecidableEq, Repr

/-- Outcome of the `easyocr.Reader(...)` constructor call. -/
inductive ReaderInit where
  | success (r : Reader)
  | failure (msg : String)

/-- State of an `EasyOCRProcessor`: the language list and the `reader`
field, which `__init__` sets to `None` before `_initialize_reader` runs. -/
structure EasyOCRProcessor where
  languages : List String
  reader : Option Reader

/-- `get_default_languages` (`easyocr_utils.py` lines 106-108), also the
default of `EasyOCRProcessor.__init__`. -/
def get_default_languages : List String := ["en", "es", "fr", "de"]

/-- `EasyOCRProcessor.__init__` plus `_initialize_reader` (lines 16-41):
a `None` language argument becomes the four-language default; the reader
is then constructed, and the `except` clause of `_initialize_reader`
re-raises (`raise`), so a failed initialization escapes the constructor. -/
def EasyOCRProcessor.construct (languages : Option (List String))
    (init : List String → ReaderInit) : Except String EasyOCRProcessor :=
  let langs := languages.getD ["en", "es", "fr", "de"]
  match init langs with
  | ReaderInit.success r => Except.ok { languages := langs, reader := some r }
  | ReaderInit.failure msg => Except.error msg

/-- Outcome of the `reader.readtext(...)` call: the fragment list it
returns (with `detail=0, paragraph=True`), or a raised exception. -/
inductive OCRCallResult where
  | results (fragments : List String)
  | raised (msg : String)

/-- The `except` clause of `EasyOCRProcessor.extract_text` (lines 76-83). -/
def classify_easyocr_error (msg : String) : String :=
  if pyIn "CUDA" msg || pyIn "cuda" msg then
    "❌ CUDA error: GPU not available or insufficient memory"
  else if pyIn "out of memory" msg then
    "❌ Memory error: Image too large for processing"
  else "❌ Error extracting text: " ++ msg

/-- `EasyOCRProcessor.extract_text` (lines 43-83): the `reader is None`
guard raises `ValueError` outside the `try`; inside it, an empty fragment
list yields the sentinel, otherwise the fragments are joined with single
spaces; any exception from the engine is classified and returned. -/
def EasyOCRProcessor.extract_text (p : EasyOCRProcessor)
    (call : OCRCallResult) : Except String String :=
  match p.reader with
  | none => Except.error "EasyOCR reader not initialized"
  | some _ =>
    match call with
    | OCRCallResult.results frags =>
        Except.ok (if frags = [] then "No text found in the image."
                   else String.intercalate " " frags)
    | OCRCallResult.raised msg => Except.ok (classify_easyocr_error msg)

/-- `EasyOCRProcessor.get_supported_languages` (lines 85-103), in the
dict's insertion order. -/
def supported_languages : List (String × String) :=
  [("en", "English"), ("es", "Spanish"), ("fr", "French"), ("de", "German"),
   ("ch_sim", "Chinese (Simplified)"), ("ar", "Arabic"), ("hi", "Hindi"),
   ("ja", "Japanese"), ("ko", "Korean"), ("ru", "Russian")]

/-! ### Language selector (`easyocr_utils.py`, `display_language_selector`,
lines 149-182)

The function iterates over `get_supported_languages()` in insertion order
and collects the codes whose checkbox is ticked; an empty collection is
replaced by `default_languages`, which itself defaults to `['en']` when
the caller passed `None`.  The checkbox state is a function from language
code to `Bool`. -/

/-- `display_language_selector`: `defaults = None` becomes `['en']`; the
ticked codes are collected in map order; an empty selection returns the
defaults. -/
def display_language_selector (defaults : Option (List String))
    (checked : String → Bool) : List String :=
  let default_languages := defaults.getD ["en"]
  let selected_languages := (supported_languages.map Prod.fst).filter checked
  if selected_languages = [] then default_languages else selected_languages

/-- Lines 94-95 of `pages/1_Local_Trained_Model.py`: the page calls the
selector with `get_default_languages()`. -/
def local_page_language_selection (checked : String → Bool) : List String :=
  display_language_selector (some get_default_languages) checked

/-! ### Session state and the clear actions

Streamlit's `st.session_state` is a string-keyed mutable mapping; we model
it as `String → Option V`.  `del st.session_state[k]` removes one key. -/

/-- Session state with values of type `V`. -/
def SessionState (V : Type) : Type := String → Option V

/-- `del st.session_state[k]`. -/
def delete_key {V : Type} (s : SessionState V) (k : String) : SessionState V :=
  fun k2 => if k2 = k then none else s k2

/-- The Clear button of the main page (`app.py` lines 303-306): delete
`'extracted_text'` when present. -/
def clear_remote_result {V : Type} (s : SessionState V) : SessionState V :=
  if (s "extracted_text").isSome then delete_key s "extracted_text" else s

/-- The Clear Results button of the local page (`easyocr_utils.py`,
`create_download_button`, lines 228-235): delete each of the two cached
keys when present. -/
def clear_local_results {V : Type} (s : SessionState V) : SessionState V :=
  (["easyocr_extracted_text", "easyocr_selected_languages"]).foldl
    (fun st k => if (st k).isSome then delete_key st k else st) s

/-! ### Extraction statistics (`app.py` lines 308-322,
`easyocr_utils.py` `display_extraction_stats` lines 185-206)

Characters = `len(text)`, Words = `len(text.split())`,
Lines = `len(text.split('\n'))`.  We embed Python's two split flavours
over the character list. -/

/-- Python's whitespace class for `str.split()` (ASCII part; the claims
only involve ASCII text). -/
def pyIsSpace (c : Char) : Bool :=
  c = ' ' || c = '\t' || c = '\n' || c = '\r' || c = '\x0b' || c = '\x0c'

/-- Split a character list at every character satisfying `p`, keeping
empty pieces; the result always has one more piece than there are
separators. -/
def splitOnPred (p : Char → Bool) : List Char → List (List Char)
  | [] => [[]]
  | c :: cs =>
    match splitOnPred p cs with
    | [] => [[c]]
    | w :: ws => if p c then [] :: w :: ws else (c :: w) :: ws

/-- Python `text.split()` (no argument): split on whitespace runs,
dropping empty pieces. -/
def pySplit (s : String) : List String :=
  ((splitOnPred pyIsSpace s.data).filter (fun w => w ≠ [])).map
    (fun w => String.mk w)

/-- Python `text.split('\n')`: split at each newline, keeping empty
pieces. -/
def pySplitLines (s : String) : List String :=
  (splitOnPred (fun c => c = '\n') s.data).map (fun w => String.mk w)

/-- The three metrics both pages render (Characters, Words, Lines). -/
def display_extraction_stats (text : String) : Nat × Nat × Nat :=
  (text.length, (pySplit text).length, (pySplitLines text).length)

/-! ### Spec-side counting functions

For the refinement claim about the statistics we restate the spec's words
independently: the word count is the number of maximal whitespace-free
runs, the line count is one more than the number of newline characters. -/

/-- Number of maximal non-whitespace runs; the Boolean records whether the
previous character was a separator (or the start of the string). -/
def wcAux : Bool → List Char → Nat
  | _, [] => 0
  | prev, c :: cs =>
    if pyIsSpace c then wcAux true cs
    else (if prev then 1 else 0) + wcAux false cs

/-- Spec: "word count = count of whitespace-delimited tokens". -/
def spec_word_count (s : String) : Nat := wcAux true s.data

/-- Spec: "line count = count of newline-delimited segments". -/
def spec_line_count (s : String) : Nat :=
  1 + s.data.countP (fun c => c = '\n')

/-- Concrete processor used to instantiate theorems about the local
backend: an English reader that initialized normally. -/
def sampleProcessor : EasyOCRProcessor :=
  { languages := ["en"], reader := some { langs := ["en"] } }

/-- Concrete reader constructor that always succeeds, used to instantiate
the construction theorems. -/
def sampleInit : List String → ReaderInit :=
  fun langs => ReaderInit.success { langs := langs }

/-- The processor `EasyOCRProcessor.construct none sampleInit` produces. -/
def sampleConstructed : EasyOCRProcessor :=
  { languages := ["en", "es", "fr", "de"],
    reader := some { langs := ["en", "es", "fr", "de"] } }

/-- Concrete session state used to instantiate the clear-action theorem. -/
def sampleSession : SessionState String :=
  fun k =>
    if k = "extracted_text" then some "remote result"
    else if k = "easyocr_extracted_text" then some "local result"
    else if k = "easyocr_selected_languages" then some "en"
    else if k = "other" then some "untouched"
    else none

/-! ## Helper lemmas -/

/-- Applying one step of the conditional-delete loop is pointwise an
unconditional delete. -/
theorem del_if_present_apply {V : Type} (st : SessionState V) (k k2 : String) :
    (if (st k).isSome then delete_key st k else st) k2 =
      if k2 = k then none else st k2 := by
  by_cases h : (st k).isSome = true
  · rw [if_pos h]; rfl
  · rw [if_neg h]
    by_cases hk : k2 = k
    · subst hk
      rw [if_pos rfl]
      exact Option.not_isSome_iff_eq_none.mp h
    · rw [if_neg hk]

/-- Pointwise description of the local page's clear action. -/
theorem clear_local_results_apply {V : Type} (s : SessionState V) (k : String) :
    clear_local_results s k =
      if k = "easyocr_selected_languages" then none
      else if k = "easyocr_extracted_text" then none
      else s k := by
  show (List.foldl _ s _) k = _
  simp only [List.foldl]
  rw [del_if_present_apply, del_if_present_apply]

/-- Pointwise description of the main page's clear action. -/
theorem clear_remote_result_apply {V : Type} (s : SessionState V) (k : String) :
    clear_remote_result s k = if k = "extracted_text" then none else s k :=
  del_if_present_apply s "extracted_text" k

/-- `splitOnPred` never returns the empty list of pieces. -/
theorem splitOnPred_ne_nil (p : Char → Bool) (l : List Char) :
    splitOnPred p l ≠ [] := by
  induction l with
  | nil => simp [splitOnPred]
  | cons c cs ih =>
    obtain ⟨w, ws, hcs⟩ := List.exists_cons_of_ne_nil ih
    simp only [splitOnPred, hcs]
    split <;> simp

/-- `splitOnPred` produces one more piece than there are separators. -/
theorem splitOnPred_length (p : Char → Bool) (l : List Char) :
    (splitOnPred p l).length = 1 + l.countP p := by
  induction l with
  | nil => simp [splitOnPred]
  | cons c cs ih =>
    obtain ⟨w, ws, hcs⟩ := List.exists_cons_of_ne_nil (splitOnPred_ne_nil p cs)
    rw [hcs] at ih
    simp only [List.length_cons] at ih
    simp only [splitOnPred, hcs]
    by_cases hc : p c = true
    · rw [if_pos hc, List.countP_cons_of_pos _ _ hc]
      simp only [List.length_cons]
      omega
    · rw [if_neg hc, List.countP_cons_of_neg _ _ (by simpa using hc)]
      simp only [List.length_cons]
      omega

/-- The number of non-empty pieces of the whitespace split is the number
of maximal non-whitespace runs (and the strengthened tail version needed
for the induction). -/
theorem words_eq_wcAux (l : List Char) :
    (((splitOnPred pyIsSpace l).filter (fun w => w ≠ [])).length =
      wcAux true l) ∧
    (∀ w ws, splitOnPred pyIsSpace l = w :: ws →
      ((ws.filter (fun w2 => w2 ≠ [])).length = wcAux false l)) := by
  induction l with
  | nil =>
    constructor
    · simp [splitOnPred, wcAux]
    · intro w ws h
      simp only [splitOnPred] at h
      injection h with h1 h2
      subst h2
      simp [wcAux]
  | cons c cs ih =>
    obtain ⟨ihA, ihB⟩ := ih
    obtain ⟨w0, ws0, hcs⟩ := List.exists_cons_of_ne_nil
      (splitOnPred_ne_nil pyIsSpace cs)
    rw [hcs] at ihA
    by_cases hc : pyIsSpace c = true
    · have hsplit : splitOnPred pyIsSpace (c :: cs) = [] :: w0 :: ws0 := by
        simp only [splitOnPred, hcs]
        rw [if_pos hc]
      constructor
      · rw [hsplit]
        have h1 : (([] : List Char) :: w0 :: ws0).filter (fun w => w ≠ []) =
            (w0 :: ws0).filter (fun w => w ≠ []) := by
          simp [List.filter_cons]
        rw [h1, ihA, wcAux, if_pos hc]
      · intro w ws h
        rw [hsplit] at h
        injection h with h1 h2
        subst h2
        rw [ihA, wcAux, if_pos hc]
    · have hsplit : splitOnPred pyIsSpace (c :: cs) = (c :: w0) :: ws0 := by
        simp only [splitOnPred, hcs]
        rw [if_neg hc]
      have hb := ihB w0 ws0 hcs
      constructor
      · rw [hsplit]
        have h1 : ((c :: w0) :: ws0).filter (fun w => w ≠ []) =
            (c :: w0) :: ws0.filter (fun w => w ≠ []) := by
          simp [List.filter_cons]
        have hwc : wcAux true (c :: cs) = 1 + wcAux false cs := by
          simp only [wcAux]
          rw [if_neg hc]
          simp
        rw [h1, hwc]
        simp only [List.length_cons, hb]
        omega
      · intro w ws h
        rw [hsplit] at h
        injection h with h1 h2
        subst h2
        have hwc : wcAux false (c :: cs) = wcAux false cs := by
          simp only [wcAux]
          rw [if_neg hc]
          simp
        rw [hwc]
        exact hb

/-! ## Claim theorems -/

/-- Claim C1: for every outcome of the underlying library call (success,
blocked response, empty response, raised exception) the remote backend's
`extract_text_from_image` and the local backend's `extract_text` (on a
processor whose reader initialized) return an ordinary string and never
propagate an exception; every raised exception becomes the classified
human-readable error string. -/
theorem extract_operations_return_strings (r : GeminiCallResult)
    (p : EasyOCRProcessor) (c : OCRCallResult)
    (hp : p.reader.isSome = true) :
    (extract_text_from_image r).isOk = true ∧
    (p.extract_text c).isOk = true ∧
    (∀ msg, extract_text_from_image (GeminiCallResult.raised msg) =
      Except.ok (classify_gemini_error msg)) ∧
    (∀ msg, p.extract_text (OCRCallResult.raised msg) =
      Except.ok (classify_easyocr_error msg)) := by
  obtain ⟨rd, hrd⟩ := Option.isSome_iff_exists.mp hp
  refine ⟨?_, ?_, ?_, ?_⟩
  · cases r with
    | raised m => rfl
    | response br t =>
      cases br with
      | some reason => rfl
      | none =>
        dsimp only [extract_text_from_image, gemini_try_body]
        split <;> rfl
  · dsimp only [EasyOCRProcessor.extract_text]
    rw [hrd]
    cases c <;> rfl
  · intro m; rfl
  · intro m
    dsimp only [EasyOCRProcessor.extract_text]
    rw [hrd]

/-- Witness for C1 at concrete inputs. -/
theorem extract_operations_return_strings_witness :
    (extract_text_from_image (GeminiCallResult.response none "hi")).isOk
      = true ∧
    (sampleProcessor.extract_text (OCRCallResult.results ["a"])).isOk
      = true :=
  ⟨(extract_operations_return_strings (GeminiCallResult.response none "hi")
      sampleProcessor (OCRCallResult.results ["a"]) rfl).1,
   (extract_operations_return_strings (GeminiCallResult.response none "hi")
      sampleProcessor (OCRCallResult.results ["a"]) rfl).2.1⟩

/-- Claim C2, counterexample: the two backends' empty-detection sentinels
are not the same string — the remote backend returns
`"No text could be extracted from the image."` on empty provider text,
the local backend returns `"No text found in the image."` on an empty
fragment list, and the two literals differ. -/
theorem no_text_sentinels_differ :
    extract_text_from_image (GeminiCallResult.response none "") =
      Except.ok "No text could be extracted from the image." ∧
    sampleProcessor.extract_text (OCRCallResult.results []) =
      Except.ok "No text found in the image." ∧
    ("No text could be extracted from the image." : String) ≠
      "No text found in the image." :=
  ⟨rfl, rfl, by decide⟩

/-- Claim C2 (amended): each backend returns exactly its own fixed
sentinel when the engine detects no text — the remote one on empty
provider text, the local one on an empty fragment list. -/
theorem no_text_sentinel_per_backend (p : EasyOCRProcessor) (rd : Reader)
    (h : p.reader = some rd) :
    extract_text_from_image (GeminiCallResult.response none "") =
      Except.ok "No text could be extracted from the image." ∧
    p.extract_text (OCRCallResult.results []) =
      Except.ok "No text found in the image." := by
  constructor
  · rfl
  · dsimp only [EasyOCRProcessor.extract_text]
    rw [h]
    rfl

/-- Witness for the amended C2 at a concrete processor. -/
theorem no_text_sentinel_per_backend_witness :
    extract_text_from_image (GeminiCallResult.response none "") =
      Except.ok "No text could be extracted from the image." ∧
    sampleProcessor.extract_text (OCRCallResult.results []) =
      Except.ok "No text found in the image." :=
  no_text_sentinel_per_backend sampleProcessor { langs := ["en"] } rfl

/-- Claim C3: an image whose largest dimension exceeds 4096 is resized so
that its largest dimension is exactly 4096, each dimension being the
floor of the exact aspect-preserving scale (the product bounds); an image
with both dimensions at most 4096 is returned unchanged. -/
theorem resize_for_gemini_bounds (w h : Nat) :
    (Nat.max w h ≤ 4096 → resize_for_gemini w h = (w, h)) ∧
    (4096 < Nat.max w h →
      Nat.max (resize_for_gemini w h).1 (resize_for_gemini w h).2 = 4096 ∧
      (resize_for_gemini w h).1 * Nat.max w h ≤ w * 4096 ∧
      w * 4096 < (resize_for_gemini w h).1 * Nat.max w h + Nat.max w h ∧
      (resize_for_gemini w h).2 * Nat.max w h ≤ h * 4096 ∧
      h * 4096 < (resize_for_gemini w h).2 * Nat.max w h + Nat.max w h) := by
  constructor
  · intro hle
    rw [resize_for_gemini, if_neg (by omega)]
  · intro hgt
    have hm0 : 0 < Nat.max w h := by omega
    rw [resize_for_gemini, if_pos hgt]
    dsimp only
    have hub : ∀ a : Nat, a * 4096 < a * 4096 / Nat.max w h * Nat.max w h
        + Nat.max w h := by
      intro a
      have h1 := (Nat.div_lt_iff_lt_mul hm0).mp
        (Nat.lt_succ_self (a * 4096 / Nat.max w h))
      calc a * 4096 < (a * 4096 / Nat.max w h + 1) * Nat.max w h := h1
        _ = a * 4096 / Nat.max w h * Nat.max w h + Nat.max w h := by ring
    refine ⟨?_, Nat.div_mul_le_self _ _, hub w, Nat.div_mul_le_self _ _,
      hub h⟩
    rcases Nat.le_total w h with hwh | hhw
    · have hmax : Nat.max w h = h := Nat.max_eq_right hwh
      have hh0 : 0 < h := by omega
      have hq2 : h * 4096 / Nat.max w h = 4096 := by
        rw [hmax, Nat.mul_comm, Nat.mul_div_cancel _ hh0]
      have hq1 : w * 4096 / Nat.max w h ≤ 4096 := by
        have hmul : w * 4096 ≤ h * 4096 := Nat.mul_le_mul_right 4096 hwh
        calc w * 4096 / Nat.max w h
            ≤ h * 4096 / Nat.max w h := Nat.div_le_div_right hmul
          _ = 4096 := hq2
      rw [hq2]
      exact Nat.max_eq_right hq1
    · have hmax : Nat.max w h = w := Nat.max_eq_left hhw
      have hw0 : 0 < w := by omega
      have hq1 : w * 4096 / Nat.max w h = 4096 := by
        rw [hmax, Nat.mul_comm, Nat.mul_div_cancel _ hw0]
      have hq2 : h * 4096 / Nat.max w h ≤ 4096 := by
        have hmul : h * 4096 ≤ w * 4096 := Nat.mul_le_mul_right 4096 hhw
        calc h * 4096 / Nat.max w h
            ≤ w * 4096 / Nat.max w h := Nat.div_le_div_right hmul
          _ = 4096 := hq1
      rw [hq1]
      exact Nat.max_eq_left hq2

/-- Witness for C3: a 8192x2048 image is resized to 4096x1024, a
1000x2000 image is untouched. -/
theorem resize_for_gemini_bounds_witness :
    resize_for_gemini 1000 2000 = (1000, 2000) ∧
    Nat.max (resize_for_gemini 8192 2048).1 (resize_for_gemini 8192 2048).2
      = 4096 :=
  ⟨(resize_for_gemini_bounds 1000 2000).1 (by decide),
   ((resize_for_gemini_bounds 8192 2048).2 (by decide)).1⟩

/-- Claim C4: validation of the normalized key is a trichotomy — no
`AIza` prefix halts with the format error, prefix but length at most 29
halts with the length error, prefix and length at least 30 proceeds. -/
theorem validate_api_key_trichotomy (key : String) :
    (py_startswith key "AIza" = false →
      validate_api_key key = ConfigCheck.formatError) ∧
    (py_startswith key "AIza" = true → key.length ≤ 29 →
      validate_api_key key = ConfigCheck.lengthError) ∧
    (py_startswith key "AIza" = true → 30 ≤ key.length →
      validate_api_key key = ConfigCheck.proceed) := by
  refine ⟨?_, ?_, ?_⟩
  · intro h1
    rw [validate_api_key, h1]
    rfl
  · intro h1 h2
    rw [validate_api_key, h1]
    show (if key.length < 30 then _ else _) = _
    rw [if_pos (by omega)]
  · intro h1 h2
    rw [validate_api_key, h1]
    show (if key.length < 30 then _ else _) = _
    rw [if_neg (by omega)]

/-- Witness for C4 at three concrete keys. -/
theorem validate_api_key_trichotomy_witness :
    validate_api_key "SK-1234567890123456789012345678901234" =
      ConfigCheck.formatError ∧
    validate_api_key "AIzaShort" = ConfigCheck.lengthError ∧
    validate_api_key "AIzaSyABCDEFGHIJKLMNOPQRSTUVWX" = ConfigCheck.proceed :=
  ⟨(validate_api_key_trichotomy "SK-1234567890123456789012345678901234").1
     (by decide),
   (validate_api_key_trichotomy "AIzaShort").2.1 (by decide) (by decide),
   (validate_api_key_trichotomy "AIzaSyABCDEFGHIJKLMNOPQRSTUVWX").2.2
     (by decide) (by decide)⟩

/-- Claim C5, counterexample: an exception message that contains both
`"400"` and `"429"` is matched by the `"400"` branch first, so the
returned string is the 400 explanation, which does not contain
`"Rate limit exceeded"`. -/
theorem rate_limit_claim_counterexample :
    pyIn "429" "Error 400 after 429 retries" = true ∧
    extract_text_from_image
        (GeminiCallResult.raised "Error 400 after 429 retries") =
      Except.ok error_400_message ∧
    pyIn "Rate limit exceeded" error_400_message = false :=
  ⟨by decide, rfl, by decide⟩

/-- Claim C5 (amended): an exception message containing `"429"` but
containing neither `"400"` nor `"403"` yields the 429 explanation, which
contains `"Rate limit exceeded"`; a message containing none of the three
status codes yields the generic error string. -/
theorem rate_limit_classification (msg : String) :
    (pyIn "400" msg = false → pyIn "403" msg = false →
      pyIn "429" msg = true →
      extract_text_from_image (GeminiCallResult.raised msg) =
        Except.ok error_429_message ∧
      pyIn "Rate limit exceeded" error_429_message = true) ∧
    (pyIn "400" msg = false → pyIn "403" msg = false →
      pyIn "429" msg = false →
      extract_text_from_image (GeminiCallResult.raised msg) =
        Except.ok ("❌ Error extracting text: " ++ msg)) := by
  constructor
  · intro h4 h3 h9
    refine ⟨?_, by decide⟩
    show Except.ok (classify_gemini_error msg) = _
    rw [classify_gemini_error, h4, h3, h9]
    rfl
  · intro h4 h3 h9
    show Except.ok (classify_gemini_error msg) = _
    rw [classify_gemini_error, h4, h3, h9]
    rfl

/-- Witness for the amended C5 at concrete messages. -/
theorem rate_limit_classification_witness :
    (extract_text_from_image (GeminiCallResult.raised "HTTP 429") =
        Except.ok error_429_message ∧
      pyIn "Rate limit exceeded" error_429_message = true) ∧
    extract_text_from_image (GeminiCallResult.raised "laps") =
      Except.ok ("❌ Error extracting text: " ++ "laps") :=
  ⟨(rate_limit_classification "HTTP 429").1 (by decide) (by decide)
     (by decide),
   (rate_limit_classification "laps").2 (by decide) (by decide) (by decide)⟩

/-- Claim C6: when no checkbox is ticked the selector returns the default
set — the page's four-language default for the local page's call, `['en']`
for a `None` default — so the language set handed to the local backend is
non-empty. -/
theorem empty_selection_falls_back_to_default
    (defaults : Option (List String)) (checked : String → Bool)
    (hnone : ∀ code, code ∈ supported_languages.map Prod.fst →
      checked code = false) :
    display_language_selector defaults checked = defaults.getD ["en"] ∧
    display_language_selector none checked = ["en"] ∧
    local_page_language_selection checked = get_default_languages ∧
    local_page_language_selection checked ≠ [] := by
  have hfil : (supported_languages.map Prod.fst).filter checked = [] := by
    rw [List.filter_eq_nil_iff]
    intro a ha
    simp [hnone a ha]
  refine ⟨?_, ?_, ?_, ?_⟩
  · simp [display_language_selector, hfil]
  · simp [display_language_selector, hfil]
  · simp [local_page_language_selection, display_language_selector, hfil]
  · simp [local_page_language_selection, display_language_selector, hfil]
    decide

/-- Witness for C6 with every checkbox unticked. -/
theorem empty_selection_falls_back_to_default_witness :
    local_page_language_selection (fun _ => false) = get_default_languages ∧
    display_language_selector none (fun _ => false) = ["en"] :=
  ⟨(empty_selection_falls_back_to_default (some get_default_languages)
      (fun _ => false) (fun _ _ => rfl)).2.2.1,
   (empty_selection_falls_back_to_default none
      (fun _ => false) (fun _ _ => rfl)).2.1⟩

/-- Claim C7: the displayed statistics are the string length, the number
of whitespace-delimited tokens (maximal non-whitespace runs) and the
number of newline-delimited segments (one more than the newline count);
on `"HELLO WORLD"` they are 11, 2 and 1. -/
theorem extraction_stats_spec (text : String) :
    display_extraction_stats text =
      (text.length, spec_word_count text, spec_line_count text) ∧
    display_extraction_stats "HELLO WORLD" = (11, 2, 1) := by
  constructor
  · rw [display_extraction_stats]
    simp only [Prod.mk.injEq]
    refine ⟨trivial, ?_, ?_⟩
    · rw [pySplit, List.length_map]
      exact (words_eq_wcAux text.data).1
    · rw [pySplitLines, List.length_map, splitOnPred_length]
      rfl
  · decide

/-- Claim C8: the clear actions remove exactly the cached keys — the main
page's removes `'extracted_text'`, the local page's removes
`'easyocr_extracted_text'` and `'easyocr_selected_languages'` — and leave
every other key untouched. -/
theorem clear_actions_remove_cached_keys {V : Type} (s : SessionState V) :
    clear_remote_result s "extracted_text" = none ∧
    (∀ k, k ≠ "extracted_text" → clear_remote_result s k = s k) ∧
    clear_local_results s "easyocr_extracted_text" = none ∧
    clear_local_results s "easyocr_selected_languages" = none ∧
    (∀ k, k ≠ "easyocr_extracted_text" →
      k ≠ "easyocr_selected_languages" → clear_local_results s k = s k) := by
  refine ⟨?_, ?_, ?_, ?_, ?_⟩
  · rw [clear_remote_result_apply, if_pos rfl]
  · intro k hk
    rw [clear_remote_result_apply, if_neg hk]
  · rw [clear_local_results_apply, if_neg (by decide), if_pos rfl]
  · rw [clear_local_results_apply, if_pos rfl]
  · intro k h1 h2
    rw [clear_local_results_apply, if_neg h2, if_neg h1]

/-- Witness for C8 on a concrete session state. -/
theorem clear_actions_remove_cached_keys_witness :
    clear_remote_result sampleSession "extracted_text" = none ∧
    clear_remote_result sampleSession "other" = sampleSession "other" ∧
    clear_local_results sampleSession "easyocr_extracted_text" = none ∧
    clear_local_results sampleSession "easyocr_selected_languages" = none ∧
    clear_local_results sampleSession "other" = sampleSession "other" :=
  ⟨(clear_actions_remove_cached_keys sampleSession).1,
   (clear_actions_remove_cached_keys sampleSession).2.1 "other" (by decide),
   (clear_actions_remove_cached_keys sampleSession).2.2.1,
   (clear_actions_remove_cached_keys sampleSession).2.2.2.1,
   (clear_actions_remove_cached_keys sampleSession).2.2.2.2 "other"
     (by decide) (by decide)⟩

/-- Claim C9: the remote error classification tests `"400"` first, then
`"403"`, then `"429"`; a message containing several of these substrings is
classified by the earliest match, and only a message containing none of
them yields the generic error string. -/
theorem gemini_error_priority (msg : String) :
    (pyIn "400" msg = true →
      extract_text_from_image (GeminiCallResult.raised msg) =
        Except.ok error_400_message) ∧
    (pyIn "400" msg = false → pyIn "403" msg = true →
      extract_text_from_image (GeminiCallResult.raised msg) =
        Except.ok error_403_message) ∧
    (pyIn "400" msg = false → pyIn "403" msg = false →
      pyIn "429" msg = true →
      extract_text_from_image (GeminiCallResult.raised msg) =
        Except.ok error_429_message) ∧
    (pyIn "400" msg = false → pyIn "403" msg = false →
      pyIn "429" msg = false →
      extract_text_from_image (GeminiCallResult.raised msg) =
        Except.ok ("❌ Error extracting text: " ++ msg)) := by
  refine ⟨?_, ?_, ?_, ?_⟩
  · intro h4
    show Except.ok (classify_gemini_error msg) = _
    rw [classify_gemini_error, h4]
    rfl
  · intro h4 h3
    show Except.ok (classify_gemini_error msg) = _
    rw [classify_gemini_error, h4, h3]
    rfl
  · intro h4 h3 h9
    show Except.ok (classify_gemini_error msg) = _
    rw [classify_gemini_error, h4, h3, h9]
    rfl
  · intro h4 h3 h9
    show Except.ok (classify_gemini_error msg) = _
    rw [classify_gemini_error, h4, h3, h9]
    rfl

/-- Witness for C9: a message holding both `"400"` and `"429"` takes the
400 branch; the other branches at messages matching only them. -/
theorem gemini_error_priority_witness :
    extract_text_from_image (GeminiCallResult.raised "400 then 429") =
      Except.ok error_400_message ∧
    extract_text_from_image (GeminiCallResult.raised "code 403") =
      Except.ok error_403_message ∧
    extract_text_from_image (GeminiCallResult.raised "code 429") =
      Except.ok error_429_message ∧
    extract_text_from_image (GeminiCallResult.raised "odd") =
      Except.ok ("❌ Error extracting text: " ++ "odd") :=
  ⟨(gemini_error_priority "400 then 429").1 (by decide),
   (gemini_error_priority "code 403").2.1 (by decide) (by decide),
   (gemini_error_priority "code 429").2.2.1 (by decide) (by decide)
     (by decide),
   (gemini_error_priority "odd").2.2.2 (by decide) (by decide) (by decide)⟩

/-- Claim C10: a processor whose construction returned normally has a
non-`None` reader, so the `"EasyOCR reader not initialized"` branch of
`extract_text` is unreachable for it. -/
theorem construct_initializes_reader (languages : Option (List String))
    (init : List String → ReaderInit) (p : EasyOCRProcessor)
    (h : EasyOCRProcessor.construct languages init = Except.ok p) :
    p.reader.isSome = true ∧
    (∀ c, (p.extract_text c).isOk = true) ∧
    (∀ c, p.extract_text c ≠
      Except.error "EasyOCR reader not initialized") := by
  rcases hi : init (languages.getD ["en", "es", "fr", "de"]) with rd | m
  · rw [EasyOCRProcessor.construct] at h
    simp only [hi] at h
    injection h with h1
    subst h1
    refine ⟨rfl, ?_, ?_⟩
    · intro c
      cases c <;> rfl
    · intro c
      cases c <;> simp [EasyOCRProcessor.extract_text]
  · rw [EasyOCRProcessor.construct] at h
    simp only [hi] at h
    exact absurd h (by simp)

/-- Witness for C10: a construction that succeeds concretely. -/
theorem construct_initializes_reader_witness :
    sampleConstructed.reader.isSome = true ∧
    (sampleConstructed.extract_text (OCRCallResult.results [])).isOk
      = true :=
  ⟨(construct_initializes_reader none sampleInit sampleConstructed rfl).1,
   (construct_initializes_reader none sampleInit sampleConstructed
      rfl).2.1 (OCRCallResult.results [])⟩
